import Mathlib

/-!
# Verification of the GGSIPU notices WhatsApp bot core

A shallow embedding of the session/broadcast service
(`src/services/wahaService.ts`) and the inbound webhook validation
(`isValidNotice` in the webhook route), together with theorems checking the
natural-language specification against it.

Remote calls (HTTP requests through axios, the WAHA automation service) are
modelled by oracle functions supplied as parameters: each remote operation's
outcome on its k-th invocation is given by the oracle at index k, so a theorem
quantified over all oracles covers every pattern of remote success and
failure.  Buffers (`Buffer` in Node) are lists of bytes (`List Nat`); thrown
exceptions are `Except` errors; wall-clock-bounded polling loops take an
explicit fuel argument standing for however many iterations the clock window
admits.  Log statements relevant to the claims are modelled as events in an
explicit trace.
-/

namespace GGSIPU

/-- `50 * 1024 * 1024`, the size ceiling used both by `downloadPdfWithRetry`
and by the split threshold / chunk size in `wahaService.ts`. -/
def MAX_PDF_SIZE : Nat := 50 * 1024 * 1024

/-- Modelled from the spec: the `Notice` model (`src/models/Notice.ts` is not
in the staged sources; spec section 3 gives its shape: integer `id`, text
`title`, `date`, `url`). -/
structure Notice where
  id : Int
  title : String
  date : String
  url : String

/-- The four session states of the `SessionStatus` interface. -/
inductive SStatus where
  | STARTING
  | SCAN_QR_CODE
  | WORKING
  | FAILED
deriving DecidableEq, Repr

/-- The `me` field of `SessionStatus`: authenticated identity info. -/
structure MeInfo where
  id : String
  pushName : String
deriving DecidableEq, Repr

/-- The `SessionStatus` interface of `wahaService.ts` (the nested `engine`
object is flattened to its single string field). -/
structure SessionStatus where
  name : String
  status : SStatus
  me : Option MeInfo
  engine : String
deriving DecidableEq, Repr

/-- A byte buffer (`Buffer` in the Node source). -/
abbrev Buf := List Nat

/-! ## Attachment fetch: `downloadPdfWithRetry` -/

/-- Errors a single download attempt can raise: a transport-level axios
failure (tagged by a numeric code), or the `PDF too large to send directly`
error thrown when the downloaded buffer exceeds `MAX_PDF_SIZE`. -/
inductive DlErr where
  | transport (code : Nat)
  | tooLarge
deriving DecidableEq, Repr

/-- One attempt of the callback passed to `backOff` in
`downloadPdfWithRetry`: perform the GET (oracle `fetch` at attempt index
`i`), build the buffer, and throw `tooLarge` when its length exceeds
`MAX_PDF_SIZE`; otherwise return the buffer. -/
def downloadAttempt (fetch : Nat → Except Nat Buf) (i : Nat) : Except DlErr Buf :=
  match fetch i with
  | .error code => .error (.transport code)
  | .ok pdfBuffer =>
      if pdfBuffer.length > MAX_PDF_SIZE then .error .tooLarge
      else .ok pdfBuffer

/-- The retry loop of the `exponential-backoff` library's `backOff`: attempts
run in order starting at index `i` while `n` attempts remain; the default
`retry` predicate is constantly true, so every kind of error is re-attempted
until the attempt budget is spent, and the last attempt's error propagates.
Returns the result paired with the index one past the last attempt made
(so starting from `i = 0` the second component is the number of attempts
performed).  The inter-attempt delays (startingDelay, timeMultiple, maxDelay,
full jitter) are sleeps with no effect on the result and are not modelled. -/
def backOffGo {ε α : Type} (attempt : Nat → Except ε α) : Nat → Nat → Except ε α × Nat
  | i, 0 => (attempt i, i + 1)
  | i, 1 => (attempt i, i + 1)
  | i, n + 2 =>
      match attempt i with
      | .ok a => (.ok a, i + 1)
      | .error _ => backOffGo attempt (i + 1) (n + 1)

/-- `numOfAttempts: 5` in the backoff options of `downloadPdfWithRetry`. -/
def numOfDownloadAttempts : Nat := 5

/-- `downloadPdfWithRetry(url)`: the download attempt wrapped in `backOff`
with `numOfAttempts: 5`.  Returns the final result together with the number
of attempts performed. -/
def downloadPdfWithRetry (fetch : Nat → Except Nat Buf) : Except DlErr Buf × Nat :=
  backOffGo (downloadAttempt fetch) 0 numOfDownloadAttempts

/-! ## Broadcast pipeline: `broadcastNotice`, `splitAndSendLargePdf` -/

/-- Observable delivery events (the delivery-relevant log/send actions of one
`broadcastNotice` run, in order):
* `attempt chat` — the per-chat iteration began (the `Downloading PDF for
  notice …` log at the top of the loop body);
* `fileSent chat filename file` — a `sendFile` POST for `chat` succeeded,
  carrying `filename` and the bytes sent;
* `linkSent chat url` — a `sendLinkPreview` POST for `chat` succeeded;
* `chatFailed chat` — the link-preview fallback also failed and the failure
  was only logged. -/
inductive Ev where
  | attempt (chat : String)
  | fileSent (chat : String) (filename : String) (file : Buf)
  | linkSent (chat : String) (url : String)
  | chatFailed (chat : String)
deriving DecidableEq, Repr

/-- Oracles for the remote operations `broadcastNotice` performs: `fetch c i`
is the outcome of attempt `i` of the PDF download done while serving chat `c`
(numeric code = transport error); `send c f` the outcome of the `sendFile`
POST to chat `c` with filename `f` (this folds in the `ensureAuthenticated`
call and retry loop inside `sendFileMessage`, whose final outcome is all the
broadcast loop observes); `link c u` the outcome of the `sendLinkPreview`
POST to chat `c` for url `u` (likewise). -/
structure BEnv where
  fetch : String → Nat → Except Nat Buf
  send : String → String → Except Nat Unit
  link : String → String → Except Nat Unit

/-- `formatNoticeCaption`: builds the caption from the notice's date and
title.  The JS locale-specific date rendering
(`toLocaleDateString('en-US', …)`) is abstracted to the raw date string; no
claim depends on the rendered text. -/
def formatNoticeCaption (notice : Notice) : String :=
  "New Notice Date: " ++ notice.date ++ " Title: " ++ notice.title

/-- `sendFileMessage(chatId, fileBuffer, filename, caption)` as observed by
the broadcast loop: the POST (with its internal auth check and retries)
either succeeds, recording a `fileSent` event, or rethrows its error. -/
def sendFileMessage (env : BEnv) (chatId : String) (fileBuffer : Buf)
    (filename : String) (_caption : String) : Except Nat Unit × List Ev :=
  match env.send chatId filename with
  | .ok _ => (.ok (), [.fileSent chatId filename fileBuffer])
  | .error c => (.error c, [])

/-- The part filename built in `splitAndSendLargePdf`:
`Notice_<id>_Part_<i+1>_of_<parts>.pdf` (the loop index `i` is 0-based). -/
def partFilename (noticeId : Int) (i parts : Nat) : String :=
  "Notice_" ++ toString noticeId ++ "_Part_" ++ toString (i + 1) ++
    "_of_" ++ toString parts ++ ".pdf"

/-- The slice taken for part `i` in `splitAndSendLargePdf`:
`pdfBuffer.slice(i * maxSize, Math.min((i + 1) * maxSize, pdfBuffer.length))`. -/
def sliceChunk (pdfBuffer : Buf) (i : Nat) : Buf :=
  let start := i * MAX_PDF_SIZE
  let stop := min ((i + 1) * MAX_PDF_SIZE) pdfBuffer.length
  (pdfBuffer.drop start).take (stop - start)

/-- The body of the `for (let i = 0; i < parts; i++)` loop of
`splitAndSendLargePdf`, run over the remaining part indices: each part is
sliced, given its part filename and part-annotated caption, and sent; a
failing send rethrows (aborting the remaining parts); the 2-second
inter-part pause is a sleep with no observable effect. -/
def sendPartsFrom (env : BEnv) (notice : Notice) (pdfBuffer : Buf)
    (chatId : String) (parts : Nat) : List Nat → Except Nat Unit × List Ev
  | [] => (.ok (), [])
  | i :: rest =>
      let partNotice : Notice :=
        { notice with title := notice.title ++ " (Part " ++ toString (i + 1) ++
            " of " ++ toString parts ++ ")" }
      let caption := formatNoticeCaption partNotice
      match sendFileMessage env chatId (sliceChunk pdfBuffer i)
          (partFilename notice.id i parts) caption with
      | (.ok _, evs) =>
          let (r, evs2) := sendPartsFrom env notice pdfBuffer chatId parts rest
          (r, evs ++ evs2)
      | (.error c, evs) => (.error c, evs)

/-- `Math.ceil(pdfBuffer.length / maxSize)` over naturals: the part count
computed by `splitAndSendLargePdf`.  (Kept irreducible so that automation
does not try to reduce the division on symbolic lengths; proofs unfold it
explicitly.) -/
def numParts (len : Nat) : Nat := (len + MAX_PDF_SIZE - 1) / MAX_PDF_SIZE

attribute [irreducible] numParts

/-- `splitAndSendLargePdf(notice, pdfBuffer, chatId)`:
`parts = Math.ceil(pdfBuffer.length / maxSize)` with `maxSize = 50 MiB`,
then the parts are sent in increasing index order. -/
def splitAndSendLargePdf (env : BEnv) (notice : Notice) (pdfBuffer : Buf)
    (chatId : String) : Except Nat Unit × List Ev :=
  let parts := numParts pdfBuffer.length
  sendPartsFrom env notice pdfBuffer chatId parts (List.range parts)

/-- The numeric tag recovered from a download error when it is rethrown into
the broadcast loop's catch (a modelling artifact: the JS exception object is
represented by a number). -/
def dlErrCode : DlErr → Nat
  | .transport k => k
  | .tooLarge => 0

/-- The `try` block of one iteration of the `broadcastNotice` loop: log the
attempt, download the PDF with retry, then either split-send (when the
buffer exceeds 50 MiB) or send as the single file `Notice_<id>.pdf`.  Any
error escapes to the surrounding catch.  (The result/trace pair of the
chosen send is taken by projections; the sends run once in the code, and
both components come from that one run.) -/
def chatTryBody (env : BEnv) (notice : Notice) (groupId : String)
    (caption : String) : Except Nat Unit × List Ev :=
  match (downloadPdfWithRetry (env.fetch groupId)).1 with
  | .error c => (.error (dlErrCode c), [.attempt groupId])
  | .ok pdfBuffer =>
      if pdfBuffer.length > MAX_PDF_SIZE then
        ((splitAndSendLargePdf env notice pdfBuffer groupId).1,
          .attempt groupId :: (splitAndSendLargePdf env notice pdfBuffer groupId).2)
      else
        ((sendFileMessage env groupId pdfBuffer
            ("Notice_" ++ toString notice.id ++ ".pdf") caption).1,
          .attempt groupId :: (sendFileMessage env groupId pdfBuffer
            ("Notice_" ++ toString notice.id ++ ".pdf") caption).2)

/-- The link-preview fallback of the catch block: `sendLinkPreview(groupId,
notice.url, title)` with the `Click to view the notice` title. -/
def fallbackSend (env : BEnv) (notice : Notice) (groupId : String)
    (_caption : String) : Except Nat Unit × List Ev :=
  match env.link groupId notice.url with
  | .ok _ => (.ok (), [.linkSent groupId notice.url])
  | .error c => (.error c, [])

/-- One full iteration of the `broadcastNotice` loop for one `groupId`,
with its two nested try/catch levels: a failure of the try body runs the
fallback; a failure of the fallback is only logged (`chatFailed`).  The
result is `.ok` exactly when no exception escapes the iteration. -/
def deliverToChat (env : BEnv) (notice : Notice) (groupId : String) :
    Except Nat Unit × List Ev :=
  match (chatTryBody env notice groupId (formatNoticeCaption notice)).1 with
  | .ok _ => (.ok (), (chatTryBody env notice groupId (formatNoticeCaption notice)).2)
  | .error _ =>
      match (fallbackSend env notice groupId (formatNoticeCaption notice)).1 with
      | .ok _ =>
          (.ok (), (chatTryBody env notice groupId (formatNoticeCaption notice)).2 ++
            (fallbackSend env notice groupId (formatNoticeCaption notice)).2)
      | .error _ =>
          (.ok (), (chatTryBody env notice groupId (formatNoticeCaption notice)).2 ++
            (fallbackSend env notice groupId (formatNoticeCaption notice)).2 ++
            [.chatFailed groupId])

/-- The `for (const groupId of config.whatsappGroupIds)` loop: iterations run
in list order; an exception escaping an iteration would abort the remaining
iterations (the loop itself has no catch), which the `Except` propagation
models. -/
def broadcastGo (env : BEnv) (notice : Notice) : List String → Except Nat Unit × List Ev
  | [] => (.ok (), [])
  | groupId :: rest =>
      match (deliverToChat env notice groupId).1 with
      | .ok _ =>
          ((broadcastGo env notice rest).1,
            (deliverToChat env notice groupId).2 ++ (broadcastGo env notice rest).2)
      | .error c => (.error c, (deliverToChat env notice groupId).2)

/-- `broadcastNotice(notice)` over the configured destination chat list. -/
def broadcastNotice (env : BEnv) (notice : Notice) (groupIds : List String) :
    Except Nat Unit × List Ev :=
  broadcastGo env notice groupIds

/-! ## Authentication: `checkSessionStatus`, `ensureAuthenticated` and the
QR loop

Remote outcomes come from an `AuthEnv` oracle: `statusResp k` is the raw
response of the k-th `GET /api/sessions/<name>` (an error is its HTTP/axios
failure code), `qrResp k` that of the k-th `GET /api/<name>/auth/qr`.
`AuthSt` threads the two call counters and, for the claims about observed
statuses, the list of statuses the service has seen so far.  Counters
advance even when a call fails, so state is returned alongside the
`Except` result rather than inside it. -/

/-- Errors the authentication state machine can raise. -/
inductive AErr where
  | transport (code : Nat)
  | unexpectedStatus (s : SStatus)
  | unexpectedWhileWaiting (s : SStatus)
  | qrWaitTimeout
  | authFailed
deriving DecidableEq, Repr

/-- Oracles for the authentication flow's remote calls. -/
structure AuthEnv where
  sessionName : String
  statusResp : Nat → Except Nat SessionStatus
  qrResp : Nat → Except Nat Buf

/-- Call counters and the trace of observed session statuses. -/
structure AuthSt where
  sIdx : Nat
  qIdx : Nat
  obs : List SStatus
deriving DecidableEq, Repr

/-- `checkSessionStatus()` on one raw response: a 404 is translated into the
synthetic `{ name, status: 'FAILED', me: null, engine: { engine: '' } }`
status; any other failure rethrows; a success returns the body. -/
def checkSessionStatus (sessionName : String) (resp : Except Nat SessionStatus) :
    Except Nat SessionStatus :=
  match resp with
  | .ok s => .ok s
  | .error code =>
      if code = 404 then
        .ok { name := sessionName, status := .FAILED, me := none, engine := "" }
      else .error code

/-- Record an observed status in the state. -/
def recordObs (st : AuthSt) (s : SStatus) : AuthSt :=
  { st with sIdx := st.sIdx + 1, obs := st.obs ++ [s] }

/-- One `await this.checkSessionStatus()` inside the service: consumes the
next status response, translating 404 per `checkSessionStatus`; on success
the observed status is appended to the observation trace. -/
def checkSt (env : AuthEnv) (st : AuthSt) : Except AErr SessionStatus × AuthSt :=
  match checkSessionStatus env.sessionName (env.statusResp st.sIdx) with
  | .ok s => (.ok s, recordObs st s.status)
  | .error code => (.error (.transport code), { st with sIdx := st.sIdx + 1 })

/-- `getAuthQR()`: consumes the next QR response; failures rethrow. -/
def getAuthQR (env : AuthEnv) (st : AuthSt) : Except AErr Buf × AuthSt :=
  match env.qrResp st.qIdx with
  | .ok b => (.ok b, { st with qIdx := st.qIdx + 1 })
  | .error code => (.error (.transport code), { st with qIdx := st.qIdx + 1 })

/-- `waitForAuthentication()`: poll the status every 5 s while the QR
expiration window (60 s) lasts; `fuel` is the number of polls the window
admits.  Returns `true` on seeing `WORKING`, `false` when the window
elapses; a failing status check rethrows. -/
def waitForAuthentication (env : AuthEnv) : Nat → AuthSt → Except AErr Bool × AuthSt
  | 0, st => (.ok false, st)
  | fuel + 1, st =>
      match (checkSt env st).1 with
      | .error e => (.error e, (checkSt env st).2)
      | .ok s =>
          if s.status = .WORKING then (.ok true, (checkSt env st).2)
          else waitForAuthentication env fuel (checkSt env st).2

/-- The `try` body of one iteration of the `handleQrCodeScan` loop: fetch the
QR challenge (`getAuthQR`), surface it (`displayQRCode` is a logging stub),
then `waitForAuthentication`. -/
def qrAttempt (env : AuthEnv) (wFuel : Nat) (st : AuthSt) : Except AErr Bool × AuthSt :=
  match (getAuthQR env st).1 with
  | .error e => (.error e, (getAuthQR env st).2)
  | .ok _ => waitForAuthentication env wFuel (getAuthQR env st).2

/-- `this.maxQrCodeAttempts = 5`. -/
def maxQrCodeAttempts : Nat := 5

/-- The `while (attempts < this.maxQrCodeAttempts)` loop of
`handleQrCodeScan`, by the number `remaining` of attempts still allowed: a
successful authentication returns; an attempt that returns `false` (window
elapsed) or throws (caught by the catch) is counted and retried; when no
attempts remain the loop throws `Failed to authenticate after multiple
attempts`.  `wFuel a` is the poll fuel of the attempt made with `a`
attempts remaining. -/
def qrLoop (env : AuthEnv) (wFuel : Nat → Nat) : Nat → AuthSt → Except AErr Unit × AuthSt
  | 0, st => (.error .authFailed, st)
  | remaining + 1, st =>
      match (qrAttempt env (wFuel (remaining + 1)) st).1 with
      | .ok true => (.ok (), (qrAttempt env (wFuel (remaining + 1)) st).2)
      | .ok false => qrLoop env wFuel remaining (qrAttempt env (wFuel (remaining + 1)) st).2
      | .error _ => qrLoop env wFuel remaining (qrAttempt env (wFuel (remaining + 1)) st).2

/-- `handleQrCodeScan()`: the QR loop entered with the full attempt budget. -/
def handleQrCodeScan (env : AuthEnv) (wFuel : Nat → Nat) (st : AuthSt) :
    Except AErr Unit × AuthSt :=
  qrLoop env wFuel maxQrCodeAttempts st

/-- `waitForQrCode()`: poll the status every 5 s while the starting-wait
window (60 s) lasts (`fuel` polls): `SCAN_QR_CODE` enters the QR loop,
`WORKING` returns, `STARTING` keeps polling, anything else throws; an
exhausted window throws the timeout error. -/
def waitForQrCode (env : AuthEnv) (wFuel : Nat → Nat) :
    Nat → AuthSt → Except AErr Unit × AuthSt
  | 0, st => (.error .qrWaitTimeout, st)
  | fuel + 1, st =>
      match (checkSt env st).1 with
      | .error e => (.error e, (checkSt env st).2)
      | .ok s =>
          if s.status = .SCAN_QR_CODE then handleQrCodeScan env wFuel (checkSt env st).2
          else if s.status = .WORKING then (.ok (), (checkSt env st).2)
          else if s.status = .STARTING then waitForQrCode env wFuel fuel (checkSt env st).2
          else (.error (.unexpectedWhileWaiting s.status), (checkSt env st).2)

/-- `ensureAuthenticated()`: one status check, then the branch on its
status: `SCAN_QR_CODE` → QR loop, `STARTING` → wait for the QR code (with
`sFuel` polls in the 60 s window), any other non-`WORKING` status → throw,
`WORKING` → log and return. -/
def ensureAuthenticated (env : AuthEnv) (wFuel : Nat → Nat) (sFuel : Nat)
    (st : AuthSt) : Except AErr Unit × AuthSt :=
  match (checkSt env st).1 with
  | .error e => (.error e, (checkSt env st).2)
  | .ok s =>
      if s.status = .SCAN_QR_CODE then handleQrCodeScan env wFuel (checkSt env st).2
      else if s.status = .STARTING then waitForQrCode env wFuel sFuel (checkSt env st).2
      else if s.status ≠ .WORKING then (.error (.unexpectedStatus s.status), (checkSt env st).2)
      else (.ok (), (checkSt env st).2)

/-! ## Inbound webhook validation: `isValidNotice` and the route handler

The webhook route parses the request body as JSON; `isValidNotice` then
checks it with JavaScript `typeof` tests.  JSON values are modelled by
`JVal` (numbers as rationals — `typeof` only checks the runtime type tag,
never the value). -/

/-- A parsed JSON value as the route handler sees `req.body`. -/
inductive JVal where
  | jnull
  | jbool (b : Bool)
  | jnum (q : Rat)
  | jstr (s : String)
  | jarr (elems : List JVal)
  | jobj (fields : List (String × JVal))

/-- `notice !== null` combined with `typeof notice === 'object'` (in JS,
`typeof` is `'object'` for plain objects, arrays and `null`). -/
def isNonNullObject : JVal → Bool
  | .jobj _ => true
  | .jarr _ => true
  | _ => false

/-- JS property access `notice.k` for the keys `isValidNotice` reads: a
missing property (or a non-object receiver) is `undefined`, modelled as
`none`. -/
def getField (v : JVal) (k : String) : Option JVal :=
  match v with
  | .jobj fields => (fields.find? (fun p => p.1 = k)).map Prod.snd
  | _ => none

/-- `typeof x === 'number'` (with `undefined` for an absent property). -/
def typeofIsNumber : Option JVal → Bool
  | some (.jnum _) => true
  | _ => false

/-- `typeof x === 'string'` (with `undefined` for an absent property). -/
def typeofIsString : Option JVal → Bool
  | some (.jstr _) => true
  | _ => false

/-- `isValidNotice(notice)` from the webhook route: the conjunction of the
`typeof` checks on the parsed body. -/
def isValidNotice (notice : JVal) : Bool :=
  isNonNullObject notice &&
  typeofIsNumber (getField notice "id") &&
  typeofIsString (getField notice "title") &&
  typeofIsString (getField notice "date") &&
  typeofIsString (getField notice "url")

/-- The `router.post('/', …)` handler's control flow as far as it decides
whether `broadcastNotice` runs, abstracting the HMAC computation into the
boolean oracle `sigValid` (the result of `verifySignature`).  Returns the
HTTP status sent together with whether `wahaService.broadcastNotice` was
invoked on the body. -/
def routePost (sigPresent : Bool) (sigValid : Bool) (body : JVal) : Nat × Bool :=
  if !sigPresent then (400, false)
  else if !sigValid then (401, false)
  else if !isValidNotice body then (400, false)
  else (200, true)

/-! ## Reference variants used by claim statements -/

/-- Reference variant of `chatTryBody` whose download-success branch always
takes the single-file path: used to state that the split branch of
`broadcastNotice` is unreachable. -/
def chatTryBodyNoSplit (env : BEnv) (notice : Notice) (groupId : String)
    (caption : String) : Except Nat Unit × List Ev :=
  match (downloadPdfWithRetry (env.fetch groupId)).1 with
  | .error c => (.error (dlErrCode c), [.attempt groupId])
  | .ok pdfBuffer =>
      ((sendFileMessage env groupId pdfBuffer
          ("Notice_" ++ toString notice.id ++ ".pdf") caption).1,
        .attempt groupId :: (sendFileMessage env groupId pdfBuffer
          ("Notice_" ++ toString notice.id ++ ".pdf") caption).2)

/-- `deliverToChat` built on `chatTryBodyNoSplit`. -/
def deliverToChatNoSplit (env : BEnv) (notice : Notice) (groupId : String) :
    Except Nat Unit × List Ev :=
  match (chatTryBodyNoSplit env notice groupId (formatNoticeCaption notice)).1 with
  | .ok _ => (.ok (), (chatTryBodyNoSplit env notice groupId (formatNoticeCaption notice)).2)
  | .error _ =>
      match (fallbackSend env notice groupId (formatNoticeCaption notice)).1 with
      | .ok _ =>
          (.ok (), (chatTryBodyNoSplit env notice groupId (formatNoticeCaption notice)).2 ++
            (fallbackSend env notice groupId (formatNoticeCaption notice)).2)
      | .error _ =>
          (.ok (), (chatTryBodyNoSplit env notice groupId (formatNoticeCaption notice)).2 ++
            (fallbackSend env notice groupId (formatNoticeCaption notice)).2 ++
            [.chatFailed groupId])

/-! ## Concrete inputs used by witnesses and counterexamples -/

/-- A buffer one byte over the 50 MiB ceiling. -/
def bigBuf : Buf := List.replicate (MAX_PDF_SIZE + 1) 0

/-- A fetch oracle whose every attempt downloads `bigBuf` successfully at the
transport level. -/
def ovFetch : Nat → Except Nat Buf := fun _ => .ok bigBuf

/-- A fetch oracle whose every attempt fails at the transport level with a
code identifying the attempt. -/
def failFetch : Nat → Except Nat Buf := fun i => .error (100 + i)

/-- The scenario notice of spec section 8. -/
def noticeEx : Notice :=
  { id := 42, title := "Exam Schedule", date := "2024-08-01",
    url := "https://host/exam.pdf" }

/-- A broadcast environment whose every download yields `bigBuf` and whose
every send and link-preview succeeds. -/
def ovEnv : BEnv :=
  { fetch := fun _ _ => .ok bigBuf
  , send := fun _ _ => .ok ()
  , link := fun _ _ => .ok () }

/-! ## Lemmas about the download retry loop -/

theorem backOffGo_snd_le {ε α : Type} (attempt : Nat → Except ε α) :
    ∀ (n i : Nat), (backOffGo attempt i n).2 ≤ i + max n 1
  | 0, i => by simp [backOffGo]
  | 1, i => by simp [backOffGo]
  | n + 2, i => by
      rw [backOffGo]
      cases hA : attempt i with
      | ok a => simp
      | error e =>
          have h := backOffGo_snd_le attempt (n + 1) (i + 1)
          simp only []
          omega

theorem backOffGo_all_fail {ε α : Type} (attempt : Nat → Except ε α)
    (es : Nat → ε) :
    ∀ (n i : Nat), (∀ j, j ≤ n → attempt (i + j) = .error (es (i + j))) →
      backOffGo attempt i (n + 1) = (.error (es (i + n)), i + n + 1)
  | 0, i, hf => by
      have h0 := hf 0 (by omega)
      simp only [Nat.add_zero] at h0
      simp [backOffGo, h0]
  | n + 1, i, hf => by
      have h0 := hf 0 (by omega)
      simp only [Nat.add_zero] at h0
      have hrec := backOffGo_all_fail attempt es n (i + 1)
        (fun j hj => by
          have := hf (j + 1) (by omega)
          rwa [show i + (j + 1) = i + 1 + j by omega] at this)
      rw [backOffGo, h0]
      simp only []
      rw [hrec]
      have e1 : i + 1 + n = i + (n + 1) := by omega
      rw [e1]

theorem backOffGo_ok {ε α : Type} (attempt : Nat → Except ε α) :
    ∀ (n i : Nat) (a : α), (backOffGo attempt i n).1 = .ok a →
      ∃ j, attempt j = .ok a
  | 0, i, a, h => ⟨i, by simpa [backOffGo] using h⟩
  | 1, i, a, h => ⟨i, by simpa [backOffGo] using h⟩
  | n + 2, i, a, h => by
      rw [backOffGo] at h
      cases hA : attempt i with
      | ok b =>
          rw [hA] at h
          simp at h
          exact ⟨i, by rw [hA, h]⟩
      | error e =>
          rw [hA] at h
          simp only [] at h
          exact backOffGo_ok attempt (n + 1) (i + 1) a h

/-- A download attempt only returns buffers within the size ceiling. -/
theorem downloadAttempt_ok_le (fetch : Nat → Except Nat Buf) (j : Nat) (buf : Buf)
    (h : downloadAttempt fetch j = .ok buf) : buf.length ≤ MAX_PDF_SIZE := by
  unfold downloadAttempt at h
  cases hF : fetch j with
  | error c => rw [hF] at h; simp at h
  | ok b =>
      rw [hF] at h
      simp only [] at h
      split at h
      · simp at h
      · rename_i hb
        cases h
        omega

/-- The length of the oversized witness buffer. -/
theorem bigBuf_length : bigBuf.length = MAX_PDF_SIZE + 1 := by
  rw [bigBuf, List.length_replicate]

/-- Every download attempt against `ovFetch` throws the too-large error. -/
theorem downloadAttempt_ovFetch (i : Nat) :
    downloadAttempt ovFetch i = .error .tooLarge := by
  show (if bigBuf.length > MAX_PDF_SIZE then (.error .tooLarge : Except DlErr Buf)
    else .ok bigBuf) = .error .tooLarge
  rw [if_pos (by rw [bigBuf_length]; omega)]

/-! ## Claim C2 -/

/-- C2 (amended): in `downloadPdfWithRetry`, the retry policy does not
distinguish the too-large condition from transport failures — `backOff`'s
default retry predicate re-attempts every error.  When every attempt fails
(with any mix of transport and too-large errors `es`), exactly 5 attempts
are made and the final attempt's error propagates; and no oracle ever makes
the loop exceed 5 attempts. -/
theorem downloadRetry_retries_every_error (fetch : Nat → Except Nat Buf)
    (es : Nat → DlErr)
    (hfail : ∀ i, i < numOfDownloadAttempts → downloadAttempt fetch i = .error (es i)) :
    downloadPdfWithRetry fetch = (.error (es 4), 5) ∧
      ∀ g : Nat → Except Nat Buf, (downloadPdfWithRetry g).2 ≤ numOfDownloadAttempts := by
  constructor
  · have h := backOffGo_all_fail (downloadAttempt fetch) es 4 0
      (fun j hj => by
        have := hfail (0 + j) (by simp [numOfDownloadAttempts]; omega)
        simpa using this)
    simpa [downloadPdfWithRetry, numOfDownloadAttempts] using h
  · intro g
    have h := backOffGo_snd_le (downloadAttempt g) numOfDownloadAttempts 0
    simpa [downloadPdfWithRetry, numOfDownloadAttempts] using h

/-- C2 witness: an oracle failing all 5 attempts at the transport level makes
exactly 5 attempts and surfaces the 5th attempt's error. -/
theorem downloadRetry_retries_every_error_witness :
    downloadPdfWithRetry failFetch = (.error (.transport 104), 5) :=
  (downloadRetry_retries_every_error failFetch (fun i => .transport (100 + i))
    (fun _ _ => rfl)).1

/-- C2 counterexample: the claim says a successfully downloaded oversized
payload raises the too-large condition immediately, without being
re-attempted under the retry policy.  Against an oracle whose every attempt
successfully downloads a 50 MiB + 1 byte payload, the loop in fact makes 5
attempts (re-downloading the oversized payload four more times) before the
too-large error propagates. -/
theorem downloadRetry_oversize_is_retried :
    downloadPdfWithRetry ovFetch = (.error .tooLarge, 5) := by
  have h := backOffGo_all_fail (downloadAttempt ovFetch) (fun _ => .tooLarge) 4 0
    (fun j _ => downloadAttempt_ovFetch (0 + j))
  simpa [downloadPdfWithRetry, numOfDownloadAttempts] using h

/-! ## Claim C3 -/

/-- Any buffer `downloadPdfWithRetry` returns normally is at most 50 MiB. -/
theorem downloadRetry_ok_le (fetch : Nat → Except Nat Buf) (buf : Buf)
    (h : (downloadPdfWithRetry fetch).1 = .ok buf) : buf.length ≤ MAX_PDF_SIZE := by
  obtain ⟨j, hj⟩ := backOffGo_ok (downloadAttempt fetch) numOfDownloadAttempts 0 buf h
  exact downloadAttempt_ok_le fetch j buf hj


/-! ## Case equations for the broadcast pipeline -/

theorem chatTryBody_err (env : BEnv) (notice : Notice) (groupId caption : String)
    (c : DlErr) (hd : (downloadPdfWithRetry (env.fetch groupId)).1 = .error c) :
    chatTryBody env notice groupId caption = (.error (dlErrCode c), [.attempt groupId]) := by
  unfold chatTryBody
  rw [hd]

theorem chatTryBody_ok (env : BEnv) (notice : Notice) (groupId caption : String)
    (pdfBuffer : Buf) (hd : (downloadPdfWithRetry (env.fetch groupId)).1 = .ok pdfBuffer) :
    chatTryBody env notice groupId caption =
      if pdfBuffer.length > MAX_PDF_SIZE then
        ((splitAndSendLargePdf env notice pdfBuffer groupId).1,
          .attempt groupId :: (splitAndSendLargePdf env notice pdfBuffer groupId).2)
      else
        ((sendFileMessage env groupId pdfBuffer
            ("Notice_" ++ toString notice.id ++ ".pdf") caption).1,
          .attempt groupId :: (sendFileMessage env groupId pdfBuffer
            ("Notice_" ++ toString notice.id ++ ".pdf") caption).2) := by
  unfold chatTryBody
  rw [hd]

theorem chatTryBodyNoSplit_err (env : BEnv) (notice : Notice) (groupId caption : String)
    (c : DlErr) (hd : (downloadPdfWithRetry (env.fetch groupId)).1 = .error c) :
    chatTryBodyNoSplit env notice groupId caption =
      (.error (dlErrCode c), [.attempt groupId]) := by
  unfold chatTryBodyNoSplit
  rw [hd]

theorem chatTryBodyNoSplit_ok (env : BEnv) (notice : Notice) (groupId caption : String)
    (pdfBuffer : Buf) (hd : (downloadPdfWithRetry (env.fetch groupId)).1 = .ok pdfBuffer) :
    chatTryBodyNoSplit env notice groupId caption =
      ((sendFileMessage env groupId pdfBuffer
          ("Notice_" ++ toString notice.id ++ ".pdf") caption).1,
        .attempt groupId :: (sendFileMessage env groupId pdfBuffer
          ("Notice_" ++ toString notice.id ++ ".pdf") caption).2) := by
  unfold chatTryBodyNoSplit
  rw [hd]

theorem deliverToChat_ok (env : BEnv) (notice : Notice) (groupId : String) (u : Unit)
    (hb : (chatTryBody env notice groupId (formatNoticeCaption notice)).1 = .ok u) :
    deliverToChat env notice groupId =
      (.ok (), (chatTryBody env notice groupId (formatNoticeCaption notice)).2) := by
  unfold deliverToChat
  rw [hb]

theorem deliverToChat_err_fbok (env : BEnv) (notice : Notice) (groupId : String)
    (e : Nat) (u : Unit)
    (hb : (chatTryBody env notice groupId (formatNoticeCaption notice)).1 = .error e)
    (hf : (fallbackSend env notice groupId (formatNoticeCaption notice)).1 = .ok u) :
    deliverToChat env notice groupId =
      (.ok (), (chatTryBody env notice groupId (formatNoticeCaption notice)).2 ++
        (fallbackSend env notice groupId (formatNoticeCaption notice)).2) := by
  unfold deliverToChat
  rw [hb, hf]

theorem deliverToChat_err_fberr (env : BEnv) (notice : Notice) (groupId : String)
    (e c : Nat)
    (hb : (chatTryBody env notice groupId (formatNoticeCaption notice)).1 = .error e)
    (hf : (fallbackSend env notice groupId (formatNoticeCaption notice)).1 = .error c) :
    deliverToChat env notice groupId =
      (.ok (), (chatTryBody env notice groupId (formatNoticeCaption notice)).2 ++
        (fallbackSend env notice groupId (formatNoticeCaption notice)).2 ++
        [.chatFailed groupId]) := by
  unfold deliverToChat
  rw [hb, hf]

theorem broadcastGo_cons (env : BEnv) (notice : Notice) (groupId : String)
    (rest : List String) (u : Unit)
    (h1 : (deliverToChat env notice groupId).1 = .ok u) :
    broadcastGo env notice (groupId :: rest) =
      ((broadcastGo env notice rest).1,
        (deliverToChat env notice groupId).2 ++ (broadcastGo env notice rest).2) := by
  rw [broadcastGo, h1]

/-- The try body never takes the split branch: it equals the variant with
the split branch removed. -/
theorem chatTryBody_eq_noSplit (env : BEnv) (notice : Notice) (groupId : String)
    (caption : String) :
    chatTryBody env notice groupId caption = chatTryBodyNoSplit env notice groupId caption := by
  cases hd : (downloadPdfWithRetry (env.fetch groupId)).1 with
  | error c =>
      rw [chatTryBody_err env notice groupId caption c hd,
        chatTryBodyNoSplit_err env notice groupId caption c hd]
  | ok pdfBuffer =>
      have hle := downloadRetry_ok_le (env.fetch groupId) pdfBuffer hd
      rw [chatTryBody_ok env notice groupId caption pdfBuffer hd,
        if_neg (Nat.not_lt.mpr hle),
        chatTryBodyNoSplit_ok env notice groupId caption pdfBuffer hd]

/-- C3: a buffer returned normally by `downloadPdfWithRetry` is at most
`50*1024*1024` bytes long, and consequently the `pdfBuffer.length > 50 MiB`
branch of `broadcastNotice` — the call to `splitAndSendLargePdf` — is dead:
per-chat delivery coincides with the variant from which that branch is
removed. -/
theorem downloadBounded_splitBranchDead :
    (∀ (fetch : Nat → Except Nat Buf) (buf : Buf),
        (downloadPdfWithRetry fetch).1 = .ok buf → buf.length ≤ MAX_PDF_SIZE) ∧
    (∀ (env : BEnv) (notice : Notice) (groupId : String),
        deliverToChat env notice groupId = deliverToChatNoSplit env notice groupId) := by
  refine ⟨downloadRetry_ok_le, ?_⟩
  intro env notice groupId
  unfold deliverToChat deliverToChatNoSplit
  rw [chatTryBody_eq_noSplit]

/-! ## Per-chat delivery and broadcast loop lemmas -/

/-- The chat a delivery-attempt event names. -/
def attemptChat : Ev → Option String
  | .attempt chat => some chat
  | _ => none

/-- The chats a trace records delivery attempts for, in order. -/
def attemptsOf (evs : List Ev) : List String :=
  evs.filterMap attemptChat

theorem attemptsOf_append (a b : List Ev) :
    attemptsOf (a ++ b) = attemptsOf a ++ attemptsOf b := by
  simp [attemptsOf, List.filterMap_append]

theorem attemptsOf_sendFileMessage (env : BEnv) (c : String) (buf : Buf)
    (f caption : String) : attemptsOf (sendFileMessage env c buf f caption).2 = [] := by
  cases h : env.send c f <;> simp [sendFileMessage, h, attemptsOf, attemptChat]

theorem attemptsOf_sendParts (env : BEnv) (notice : Notice) (pdfBuffer : Buf)
    (chatId : String) (parts : Nat) :
    ∀ l, attemptsOf (sendPartsFrom env notice pdfBuffer chatId parts l).2 = []
  | [] => by simp [sendPartsFrom, attemptsOf]
  | i :: rest => by
      have ih := attemptsOf_sendParts env notice pdfBuffer chatId parts rest
      cases h : env.send chatId (partFilename notice.id i parts) with
      | ok u =>
          simp [sendPartsFrom, sendFileMessage, h, attemptsOf, attemptChat] at ih ⊢
          exact ih
      | error c =>
          simp [sendPartsFrom, sendFileMessage, h, attemptsOf, attemptChat]

theorem attemptsOf_split (env : BEnv) (notice : Notice) (pdfBuffer : Buf)
    (chatId : String) :
    attemptsOf (splitAndSendLargePdf env notice pdfBuffer chatId).2 = [] := by
  unfold splitAndSendLargePdf
  exact attemptsOf_sendParts env notice pdfBuffer chatId _ _

theorem attemptsOf_chatTryBody (env : BEnv) (notice : Notice) (groupId caption : String) :
    attemptsOf (chatTryBody env notice groupId caption).2 = [groupId] := by
  cases hd : (downloadPdfWithRetry (env.fetch groupId)).1 with
  | error c =>
      rw [chatTryBody_err env notice groupId caption c hd]
      simp [attemptsOf, attemptChat]
  | ok pdfBuffer =>
      rw [chatTryBody_ok env notice groupId caption pdfBuffer hd]
      by_cases hsz : pdfBuffer.length > MAX_PDF_SIZE
      · rw [if_pos hsz]
        have hs := attemptsOf_split env notice pdfBuffer groupId
        simp [attemptsOf, attemptChat] at hs ⊢
        exact hs
      · rw [if_neg hsz]
        have hf := attemptsOf_sendFileMessage env groupId pdfBuffer
          ("Notice_" ++ toString notice.id ++ ".pdf") caption
        simp [attemptsOf, attemptChat] at hf ⊢
        exact hf

theorem attemptsOf_fallbackSend (env : BEnv) (notice : Notice) (groupId caption : String) :
    attemptsOf (fallbackSend env notice groupId caption).2 = [] := by
  cases h : env.link groupId notice.url <;>
    simp [fallbackSend, h, attemptsOf, attemptChat]

/-- An iteration of the broadcast loop never lets an exception escape: the
outer catch covers the try body and the inner catch covers the fallback. -/
theorem deliverToChat_fst (env : BEnv) (notice : Notice) (groupId : String) :
    (deliverToChat env notice groupId).1 = .ok () := by
  cases hb : (chatTryBody env notice groupId (formatNoticeCaption notice)).1 with
  | ok u => rw [deliverToChat_ok env notice groupId u hb]
  | error e =>
      cases hf : (fallbackSend env notice groupId (formatNoticeCaption notice)).1 with
      | ok u => rw [deliverToChat_err_fbok env notice groupId e u hb hf]
      | error c => rw [deliverToChat_err_fberr env notice groupId e c hb hf]

theorem attemptsOf_chatFailed (groupId : String) :
    attemptsOf [Ev.chatFailed groupId] = [] := rfl

/-- An iteration of the broadcast loop records exactly one delivery attempt,
for its own chat, whatever the oracle outcomes. -/
theorem attemptsOf_deliverToChat (env : BEnv) (notice : Notice) (groupId : String) :
    attemptsOf (deliverToChat env notice groupId).2 = [groupId] := by
  have hb0 := attemptsOf_chatTryBody env notice groupId (formatNoticeCaption notice)
  cases hb : (chatTryBody env notice groupId (formatNoticeCaption notice)).1 with
  | ok u =>
      rw [deliverToChat_ok env notice groupId u hb]
      exact hb0
  | error e =>
      have hf0 := attemptsOf_fallbackSend env notice groupId (formatNoticeCaption notice)
      cases hf : (fallbackSend env notice groupId (formatNoticeCaption notice)).1 with
      | ok u =>
          rw [deliverToChat_err_fbok env notice groupId e u hb hf]
          show attemptsOf
            ((chatTryBody env notice groupId (formatNoticeCaption notice)).2 ++
              (fallbackSend env notice groupId (formatNoticeCaption notice)).2) = [groupId]
          rw [attemptsOf_append, hb0, hf0]
          rfl
      | error c =>
          rw [deliverToChat_err_fberr env notice groupId e c hb hf]
          show attemptsOf
            ((chatTryBody env notice groupId (formatNoticeCaption notice)).2 ++
              (fallbackSend env notice groupId (formatNoticeCaption notice)).2 ++
              [Ev.chatFailed groupId]) = [groupId]
          rw [attemptsOf_append, attemptsOf_append, hb0, hf0, attemptsOf_chatFailed]
          rfl

/-! ## Claim C5 -/

/-- C5: `broadcastNotice` never raises — for every notice, every destination
chat list and every combination of fetch, send and fallback outcomes the
call returns normally (each iteration's failures are fully absorbed by its
catch blocks, so no exception ever escapes the loop). -/
theorem broadcastNotice_never_raises (env : BEnv) (notice : Notice) :
    ∀ groupIds : List String, (broadcastNotice env notice groupIds).1 = .ok ()
  | [] => rfl
  | groupId :: rest => by
      have ih := broadcastNotice_never_raises env notice rest
      rw [broadcastNotice,
        broadcastGo_cons env notice groupId rest () (deliverToChat_fst env notice groupId)]
      exact ih

/-! ## Claim C4 -/

/-- C4: `broadcastNotice` over N destination chats records exactly N
delivery attempts, one per configured chat, in list order — regardless of
any chat's fetch, send or fallback failures (the statement quantifies over
every oracle, so every combination of per-chat failures is covered). -/
theorem broadcastNotice_attempts_all_chats (env : BEnv) (notice : Notice) :
    ∀ groupIds : List String,
      attemptsOf (broadcastNotice env notice groupIds).2 = groupIds
  | [] => rfl
  | groupId :: rest => by
      have ih := broadcastNotice_attempts_all_chats env notice rest
      rw [broadcastNotice,
        broadcastGo_cons env notice groupId rest () (deliverToChat_fst env notice groupId)]
      show attemptsOf
        ((deliverToChat env notice groupId).2 ++ (broadcastGo env notice rest).2) =
          groupId :: rest
      rw [attemptsOf_append, attemptsOf_deliverToChat]
      rw [broadcastNotice] at ih
      rw [ih]
      rfl

/-! ## Claim C1 (code bug): an oversized attachment takes the link-preview
fallback, not the split path -/

/-- C1: evaluating `broadcastNotice` at the failing input — an attachment of
`50 MiB + 1` bytes that every fetch attempt downloads successfully, with all
sends succeeding, one destination chat `"g1"`.  The download helper throws
`PDF too large to send directly`, the catch in the loop runs the
link-preview fallback, and no `splitAndSendLargePdf` part-file send happens:
the trace is exactly one delivery attempt followed by one link preview.  The
oversize condition therefore reaches the fallback reserved for irrecoverable
failures, and the split branch (which the claim and the code's own
`pdfBuffer.length > 50 MiB` branch intend for this case) never runs. -/
theorem oversizeTriggersLinkFallback :
    broadcastNotice ovEnv noticeEx ["g1"] =
      (.ok (), [.attempt "g1", .linkSent "g1" noticeEx.url]) := by
  have hd : (downloadPdfWithRetry (ovEnv.fetch "g1")).1 = .error .tooLarge := by
    show (downloadPdfWithRetry ovFetch).1 = .error .tooLarge
    rw [downloadRetry_oversize_is_retried]
  have hb := chatTryBody_err ovEnv noticeEx "g1" (formatNoticeCaption noticeEx) .tooLarge hd
  have hb1 : (chatTryBody ovEnv noticeEx "g1" (formatNoticeCaption noticeEx)).1 =
      .error 0 := by
    rw [hb]
    rfl
  have hf : fallbackSend ovEnv noticeEx "g1" (formatNoticeCaption noticeEx) =
      (.ok (), [.linkSent "g1" noticeEx.url]) := rfl
  have hf1 : (fallbackSend ovEnv noticeEx "g1" (formatNoticeCaption noticeEx)).1 =
      .ok () := by rw [hf]
  have hdel := deliverToChat_err_fbok ovEnv noticeEx "g1" 0 () hb1 hf1
  rw [broadcastNotice,
    broadcastGo_cons ovEnv noticeEx "g1" [] () (deliverToChat_fst ovEnv noticeEx "g1"),
    hdel, hb, hf]
  rfl

/-! ## Claim C7: the split covers the buffer exactly -/

theorem sliceChunk_eq_take (pdfBuffer : Buf) (i : Nat) :
    sliceChunk pdfBuffer i = (pdfBuffer.drop (i * MAX_PDF_SIZE)).take MAX_PDF_SIZE := by
  simp only [sliceChunk]
  apply List.take_eq_take.mpr
  rw [List.length_drop]
  have hsm : (i + 1) * MAX_PDF_SIZE = i * MAX_PDF_SIZE + MAX_PDF_SIZE := Nat.succ_mul i _
  rw [hsm]
  omega

theorem sliceChunk_length_le (pdfBuffer : Buf) (i : Nat) :
    (sliceChunk pdfBuffer i).length ≤ MAX_PDF_SIZE := by
  rw [sliceChunk_eq_take]
  exact List.length_take_le _ _

/-- Concatenating take-`m` chunks at offsets `0, m, 2m, …` over `n` chunks
rebuilds any list of length at most `n * m`. -/
theorem chunksJoin (m : Nat) :
    ∀ (n : Nat) (buf : Buf), buf.length ≤ n * m →
      ((List.range n).map (fun i => (buf.drop (i * m)).take m)).flatten = buf
  | 0, buf, h => by
      have hb : buf = [] := List.length_eq_zero.mp (Nat.le_zero.mp (by simpa using h))
      subst hb
      rfl
  | n + 1, buf, h => by
      rw [List.range_succ_eq_map, List.map_cons, List.map_map, List.flatten_cons]
      have hfirst : (buf.drop (0 * m)).take m = buf.take m := by
        rw [Nat.zero_mul, List.drop_zero]
      rw [hfirst]
      have htail : (List.range n).map ((fun i => (buf.drop (i * m)).take m) ∘ Nat.succ) =
          (List.range n).map (fun i => ((buf.drop m).drop (i * m)).take m) := by
        apply List.map_congr_left
        intro i _
        show (buf.drop (Nat.succ i * m)).take m = ((buf.drop m).drop (i * m)).take m
        rw [List.drop_drop]
        have : Nat.succ i * m = m + i * m := by
          rw [Nat.succ_mul, Nat.add_comm]
        rw [this]
      rw [htail]
      have hih := chunksJoin m n (buf.drop m) (by
        rw [List.length_drop]
        apply Nat.sub_le_iff_le_add.mpr
        rw [Nat.succ_mul] at h
        exact h)
      rw [hih]
      exact List.take_append_drop m buf

/-- The ceil part count covers the whole buffer. -/
theorem lenLeCeil (len : Nat) : len ≤ numParts len * MAX_PDF_SIZE := by
  unfold numParts MAX_PDF_SIZE
  omega

theorem chunksCover (pdfBuffer : Buf) :
    ((List.range (numParts pdfBuffer.length)).map (sliceChunk pdfBuffer)).flatten =
      pdfBuffer := by
  have hmap : (List.range (numParts pdfBuffer.length)).map (sliceChunk pdfBuffer) =
      (List.range (numParts pdfBuffer.length)).map
        (fun i => (pdfBuffer.drop (i * MAX_PDF_SIZE)).take MAX_PDF_SIZE) :=
    List.map_congr_left (fun i _ => sliceChunk_eq_take pdfBuffer i)
  rw [hmap]
  exact chunksJoin MAX_PDF_SIZE (numParts pdfBuffer.length) pdfBuffer
    (lenLeCeil pdfBuffer.length)

/-- When every send to the chat succeeds, the part loop sends one file per
index, in order, with the part filenames and slices. -/
theorem sendParts_ok_trace (env : BEnv) (notice : Notice) (pdfBuffer : Buf)
    (chatId : String) (parts : Nat)
    (hsend : ∀ f, env.send chatId f = .ok ()) :
    ∀ l, sendPartsFrom env notice pdfBuffer chatId parts l =
      (.ok (), l.map fun i =>
        Ev.fileSent chatId (partFilename notice.id i parts) (sliceChunk pdfBuffer i))
  | [] => by simp [sendPartsFrom]
  | i :: rest => by
      have ih := sendParts_ok_trace env notice pdfBuffer chatId parts hsend rest
      simp [sendPartsFrom, sendFileMessage, hsend (partFilename notice.id i parts), ih]

theorem splitAndSendLargePdf_eq (env : BEnv) (notice : Notice) (pdfBuffer : Buf)
    (chatId : String) :
    splitAndSendLargePdf env notice pdfBuffer chatId =
      sendPartsFrom env notice pdfBuffer chatId (numParts pdfBuffer.length)
        (List.range (numParts pdfBuffer.length)) := rfl

/-- C7: for a buffer over 50 MiB whose sends all succeed,
`splitAndSendLargePdf` emits exactly `numParts` part-file sends in strictly
increasing part order, part `i` carrying filename
`Notice_<id>_Part_<i+1>_of_<total>.pdf` and slice `i`; `numParts` is
`ceil(S / 50 MiB)`; the slices concatenate back to the buffer exactly and
each is at most 50 MiB; the part count is at least 2; and a buffer of
exactly 50 MiB is instead sent by `broadcastNotice`'s per-chat delivery as
the single file `Notice_<id>.pdf`. -/
theorem splitReconstruction (env : BEnv) (notice : Notice) (pdfBuffer : Buf)
    (chatId : String)
    (hbig : MAX_PDF_SIZE < pdfBuffer.length)
    (hsend : ∀ f, env.send chatId f = .ok ()) :
    splitAndSendLargePdf env notice pdfBuffer chatId =
      (.ok (), (List.range (numParts pdfBuffer.length)).map fun i =>
        Ev.fileSent chatId (partFilename notice.id i (numParts pdfBuffer.length))
          (sliceChunk pdfBuffer i)) ∧
    numParts pdfBuffer.length = (pdfBuffer.length + MAX_PDF_SIZE - 1) / MAX_PDF_SIZE ∧
    ((List.range (numParts pdfBuffer.length)).map (sliceChunk pdfBuffer)).flatten =
      pdfBuffer ∧
    (∀ i, (sliceChunk pdfBuffer i).length ≤ MAX_PDF_SIZE) ∧
    2 ≤ numParts pdfBuffer.length ∧
    (∀ (env2 : BEnv) (notice2 : Notice) (chatId2 : String) (buf2 : Buf),
      (downloadPdfWithRetry (env2.fetch chatId2)).1 = .ok buf2 →
      buf2.length = MAX_PDF_SIZE →
      env2.send chatId2 ("Notice_" ++ toString notice2.id ++ ".pdf") = .ok () →
      deliverToChat env2 notice2 chatId2 =
        (.ok (), [.attempt chatId2,
          .fileSent chatId2 ("Notice_" ++ toString notice2.id ++ ".pdf") buf2])) := by
  refine ⟨?_, ?_, chunksCover pdfBuffer, sliceChunk_length_le pdfBuffer, ?_, ?_⟩
  · rw [splitAndSendLargePdf_eq]
    exact sendParts_ok_trace env notice pdfBuffer chatId _ hsend _
  · unfold numParts
    rfl
  · unfold numParts
    unfold MAX_PDF_SIZE at hbig ⊢
    omega
  · intro env2 notice2 chatId2 buf2 hdl hlen hsend2
    have hct := chatTryBody_ok env2 notice2 chatId2 (formatNoticeCaption notice2) buf2 hdl
    rw [if_neg (by rw [hlen]; omega)] at hct
    have hsf : sendFileMessage env2 chatId2 buf2
        ("Notice_" ++ toString notice2.id ++ ".pdf") (formatNoticeCaption notice2) =
        (.ok (), [.fileSent chatId2 ("Notice_" ++ toString notice2.id ++ ".pdf") buf2]) := by
      unfold sendFileMessage
      rw [hsend2]
    rw [hsf] at hct
    have hb : (chatTryBody env2 notice2 chatId2 (formatNoticeCaption notice2)).1 =
        .ok () := by rw [hct]
    have hdel := deliverToChat_ok env2 notice2 chatId2 () hb
    rw [hdel, hct]

/-- C7 witness: the 50 MiB + 1 buffer is over the ceiling and its slices
reconstruct it. -/
theorem splitReconstruction_witness :
    ((List.range (numParts bigBuf.length)).map (sliceChunk bigBuf)).flatten = bigBuf :=
  (splitReconstruction ovEnv noticeEx bigBuf "g1"
    (by rw [bigBuf_length]; omega) (fun f => rfl)).2.2.1

/-! ## Authentication lemmas -/

/-- `checkSessionStatus` passes successful responses through. -/
theorem checkSessionStatus_ok (sessionName : String) (s : SessionStatus) :
    checkSessionStatus sessionName (.ok s) = .ok s := rfl

/-- `checkSessionStatus` translates a 404 into the synthetic FAILED status. -/
theorem checkSessionStatus_404 (sessionName : String) :
    checkSessionStatus sessionName (.error 404) =
      .ok { name := sessionName, status := .FAILED, me := none, engine := "" } := rfl

/-- `checkSessionStatus` rethrows every other failure. -/
theorem checkSessionStatus_err (sessionName : String) (code : Nat) (h : code ≠ 404) :
    checkSessionStatus sessionName (.error code) = .error code := by
  unfold checkSessionStatus
  show (if code = 404 then
      (.ok { name := sessionName, status := SStatus.FAILED, me := none, engine := "" } :
        Except Nat SessionStatus)
    else .error code) = .error code
  rw [if_neg h]

/-- Every `checkSt` call either observes a status (appending it to the
observation trace) or propagates a transport error (leaving the trace
unchanged); the status-query counter advances either way and the QR counter
never moves. -/
theorem checkSt_cases (env : AuthEnv) (st : AuthSt) :
    (∃ s, checkSt env st = (.ok s, recordObs st s.status)) ∨
    (∃ c, checkSt env st = (.error (.transport c), { st with sIdx := st.sIdx + 1 })) := by
  unfold checkSt
  cases hc : checkSessionStatus env.sessionName (env.statusResp st.sIdx) with
  | ok s => exact Or.inl ⟨s, rfl⟩
  | error c => exact Or.inr ⟨c, rfl⟩

theorem recordObs_last (st : AuthSt) (x : SStatus) :
    (recordObs st x).obs.getLast? = some x := by
  unfold recordObs
  simp [List.getLast?_concat]

theorem getAuthQR_snd (env : AuthEnv) (st : AuthSt) :
    (getAuthQR env st).2 = { st with qIdx := st.qIdx + 1 } := by
  unfold getAuthQR
  cases hq : env.qrResp st.qIdx <;> rfl

theorem getAuthQR_cases (env : AuthEnv) (st : AuthSt) :
    (∃ b, (getAuthQR env st).1 = .ok b) ∨ (∃ c, (getAuthQR env st).1 = .error (.transport c)) := by
  unfold getAuthQR
  cases hq : env.qrResp st.qIdx with
  | ok b => exact Or.inl ⟨b, rfl⟩
  | error c => exact Or.inr ⟨c, rfl⟩

theorem wfa_zero (env : AuthEnv) (st : AuthSt) :
    waitForAuthentication env 0 st = (.ok false, st) := rfl

theorem wfa_succ_err (env : AuthEnv) (st : AuthSt) (fuel : Nat) (e : AErr)
    (h : (checkSt env st).1 = .error e) :
    waitForAuthentication env (fuel + 1) st = (.error e, (checkSt env st).2) := by
  rw [waitForAuthentication, h]

theorem wfa_succ_ok (env : AuthEnv) (st : AuthSt) (fuel : Nat) (s : SessionStatus)
    (h : (checkSt env st).1 = .ok s) :
    waitForAuthentication env (fuel + 1) st =
      if s.status = .WORKING then (.ok true, (checkSt env st).2)
      else waitForAuthentication env fuel (checkSt env st).2 := by
  rw [waitForAuthentication, h]

/-- `waitForAuthentication` only answers `true` right after observing
`WORKING`. -/
theorem wfa_true_last (env : AuthEnv) :
    ∀ (fuel : Nat) (st st1 : AuthSt),
      waitForAuthentication env fuel st = (.ok true, st1) →
      st1.obs.getLast? = some .WORKING
  | 0, st, st1, h => by
      rw [wfa_zero] at h
      simp at h
  | fuel + 1, st, st1, h => by
      rcases checkSt_cases env st with ⟨s, hc⟩ | ⟨c, hc⟩
      · have hc1 : (checkSt env st).1 = .ok s := by rw [hc]
        rw [wfa_succ_ok env st fuel s hc1] at h
        by_cases hw : s.status = .WORKING
        · rw [if_pos hw] at h
          have h2 : (checkSt env st).2 = st1 := by
            have := congrArg Prod.snd h
            simpa using this
          rw [hc] at h2
          simp at h2
          rw [← h2, recordObs_last, hw]
        · rw [if_neg hw] at h
          exact wfa_true_last env fuel (checkSt env st).2 st1 h
      · have hc1 : (checkSt env st).1 = .error (.transport c) := by rw [hc]
        rw [wfa_succ_err env st fuel (.transport c) hc1] at h
        simp at h

theorem wfa_qIdx (env : AuthEnv) :
    ∀ (fuel : Nat) (st : AuthSt), (waitForAuthentication env fuel st).2.qIdx = st.qIdx
  | 0, st => rfl
  | fuel + 1, st => by
      rcases checkSt_cases env st with ⟨s, hc⟩ | ⟨c, hc⟩
      · have hc1 : (checkSt env st).1 = .ok s := by rw [hc]
        have hcq : (checkSt env st).2.qIdx = st.qIdx := by rw [hc]; rfl
        rw [wfa_succ_ok env st fuel s hc1]
        by_cases hw : s.status = .WORKING
        · rw [if_pos hw]
          exact hcq
        · rw [if_neg hw, wfa_qIdx env fuel (checkSt env st).2]
          exact hcq
      · have hc1 : (checkSt env st).1 = .error (.transport c) := by rw [hc]
        have hcq : (checkSt env st).2.qIdx = st.qIdx := by rw [hc]
        rw [wfa_succ_err env st fuel (.transport c) hc1]
        exact hcq

theorem qrAttempt_err (env : AuthEnv) (w : Nat) (st : AuthSt) (e : AErr)
    (h : (getAuthQR env st).1 = .error e) :
    qrAttempt env w st = (.error e, (getAuthQR env st).2) := by
  unfold qrAttempt
  rw [h]

theorem qrAttempt_ok (env : AuthEnv) (w : Nat) (st : AuthSt) (b : Buf)
    (h : (getAuthQR env st).1 = .ok b) :
    qrAttempt env w st = waitForAuthentication env w (getAuthQR env st).2 := by
  unfold qrAttempt
  rw [h]

/-- A QR attempt only succeeds right after observing `WORKING`. -/
theorem qrAttempt_true_last (env : AuthEnv) (w : Nat) (st st1 : AuthSt)
    (h : qrAttempt env w st = (.ok true, st1)) :
    st1.obs.getLast? = some .WORKING := by
  rcases getAuthQR_cases env st with ⟨b, hq⟩ | ⟨c, hq⟩
  · rw [qrAttempt_ok env w st b hq] at h
    exact wfa_true_last env w _ st1 h
  · rw [qrAttempt_err env w st _ hq] at h
    simp at h

/-- Every QR attempt consumes exactly one fresh QR challenge. -/
theorem qrAttempt_qIdx (env : AuthEnv) (w : Nat) (st : AuthSt) :
    (qrAttempt env w st).2.qIdx = st.qIdx + 1 := by
  rcases getAuthQR_cases env st with ⟨b, hq⟩ | ⟨c, hq⟩
  · rw [qrAttempt_ok env w st b hq, wfa_qIdx env w ((getAuthQR env st).2), getAuthQR_snd]
  · rw [qrAttempt_err env w st _ hq, getAuthQR_snd]

theorem qrLoop_zero (env : AuthEnv) (w : Nat → Nat) (st : AuthSt) :
    qrLoop env w 0 st = (.error .authFailed, st) := rfl

theorem qrLoop_succ_true (env : AuthEnv) (w : Nat → Nat) (rem : Nat) (st : AuthSt)
    (h : (qrAttempt env (w (rem + 1)) st).1 = .ok true) :
    qrLoop env w (rem + 1) st = (.ok (), (qrAttempt env (w (rem + 1)) st).2) := by
  rw [qrLoop, h]

theorem qrLoop_succ_false (env : AuthEnv) (w : Nat → Nat) (rem : Nat) (st : AuthSt)
    (h : (qrAttempt env (w (rem + 1)) st).1 = .ok false) :
    qrLoop env w (rem + 1) st = qrLoop env w rem (qrAttempt env (w (rem + 1)) st).2 := by
  rw [qrLoop, h]

theorem qrLoop_succ_err (env : AuthEnv) (w : Nat → Nat) (rem : Nat) (st : AuthSt)
    (e : AErr) (h : (qrAttempt env (w (rem + 1)) st).1 = .error e) :
    qrLoop env w (rem + 1) st = qrLoop env w rem (qrAttempt env (w (rem + 1)) st).2 := by
  rw [qrLoop, h]

theorem qrAttempt_result_cases (env : AuthEnv) (w : Nat) (st : AuthSt) :
    (qrAttempt env w st).1 = .ok true ∨ (qrAttempt env w st).1 = .ok false ∨
      ∃ e, (qrAttempt env w st).1 = .error e := by
  cases hr : (qrAttempt env w st).1 with
  | ok b => cases b with
    | true => exact Or.inl rfl
    | false => exact Or.inr (Or.inl rfl)
  | error e => exact Or.inr (Or.inr ⟨e, rfl⟩)

/-- The QR loop only returns normally right after observing `WORKING`. -/
theorem qrLoop_ok_last (env : AuthEnv) (w : Nat → Nat) :
    ∀ (rem : Nat) (st st1 : AuthSt), qrLoop env w rem st = (.ok (), st1) →
      st1.obs.getLast? = some .WORKING
  | 0, st, st1, h => by
      rw [qrLoop_zero] at h
      simp at h
  | rem + 1, st, st1, h => by
      rcases qrAttempt_result_cases env (w (rem + 1)) st with ht | hf | ⟨e, he⟩
      · rw [qrLoop_succ_true env w rem st ht] at h
        have h2 : (qrAttempt env (w (rem + 1)) st).2 = st1 := by
          have := congrArg Prod.snd h
          simpa using this
        exact qrAttempt_true_last env (w (rem + 1)) st st1 (Prod.ext ht h2)
      · rw [qrLoop_succ_false env w rem st hf] at h
        exact qrLoop_ok_last env w rem _ st1 h
      · rw [qrLoop_succ_err env w rem st e he] at h
        exact qrLoop_ok_last env w rem _ st1 h

/-- The QR loop consumes at most one fresh challenge per remaining attempt. -/
theorem qrLoop_qIdx_le (env : AuthEnv) (w : Nat → Nat) :
    ∀ (rem : Nat) (st : AuthSt), (qrLoop env w rem st).2.qIdx ≤ st.qIdx + rem
  | 0, st => by
      rw [qrLoop_zero]
      show st.qIdx ≤ st.qIdx + 0
      omega
  | rem + 1, st => by
      rcases qrAttempt_result_cases env (w (rem + 1)) st with ht | hf | ⟨e, he⟩
      · rw [qrLoop_succ_true env w rem st ht]
        show (qrAttempt env (w (rem + 1)) st).2.qIdx ≤ st.qIdx + (rem + 1)
        have h1 := qrAttempt_qIdx env (w (rem + 1)) st
        omega
      · rw [qrLoop_succ_false env w rem st hf]
        have h1 := qrLoop_qIdx_le env w rem (qrAttempt env (w (rem + 1)) st).2
        have h2 := qrAttempt_qIdx env (w (rem + 1)) st
        omega
      · rw [qrLoop_succ_err env w rem st e he]
        have h1 := qrLoop_qIdx_le env w rem (qrAttempt env (w (rem + 1)) st).2
        have h2 := qrAttempt_qIdx env (w (rem + 1)) st
        omega

/-- The QR loop fails only with the authentication-failed error, and only
after consuming one fresh challenge per allowed attempt. -/
theorem qrLoop_err_charac (env : AuthEnv) (w : Nat → Nat) :
    ∀ (rem : Nat) (st : AuthSt) (e : AErr) (st1 : AuthSt),
      qrLoop env w rem st = (.error e, st1) →
      e = .authFailed ∧ st1.qIdx = st.qIdx + rem
  | 0, st, e, st1, h => by
      rw [qrLoop_zero] at h
      have h1 := congrArg Prod.fst h
      have h2 := congrArg Prod.snd h
      simp at h1 h2
      exact ⟨h1.symm, by rw [← h2]; omega⟩
  | rem + 1, st, e, st1, h => by
      rcases qrAttempt_result_cases env (w (rem + 1)) st with ht | hf | ⟨e2, he⟩
      · rw [qrLoop_succ_true env w rem st ht] at h
        simp at h
      · rw [qrLoop_succ_false env w rem st hf] at h
        have ih := qrLoop_err_charac env w rem _ e st1 h
        have h2 := qrAttempt_qIdx env (w (rem + 1)) st
        exact ⟨ih.1, by omega⟩
      · rw [qrLoop_succ_err env w rem st e2 he] at h
        have ih := qrLoop_err_charac env w rem _ e st1 h
        have h2 := qrAttempt_qIdx env (w (rem + 1)) st
        exact ⟨ih.1, by omega⟩

theorem ensureAuth_ok_eq (env : AuthEnv) (wFuel : Nat → Nat) (sFuel : Nat)
    (st : AuthSt) (s : SessionStatus) (h : (checkSt env st).1 = .ok s) :
    ensureAuthenticated env wFuel sFuel st =
      if s.status = .SCAN_QR_CODE then handleQrCodeScan env wFuel (checkSt env st).2
      else if s.status = .STARTING then waitForQrCode env wFuel sFuel (checkSt env st).2
      else if s.status ≠ .WORKING then (.error (.unexpectedStatus s.status), (checkSt env st).2)
      else (.ok (), (checkSt env st).2) := by
  unfold ensureAuthenticated
  rw [h]

theorem ensureAuth_err_eq (env : AuthEnv) (wFuel : Nat → Nat) (sFuel : Nat)
    (st : AuthSt) (e : AErr) (h : (checkSt env st).1 = .error e) :
    ensureAuthenticated env wFuel sFuel st = (.error e, (checkSt env st).2) := by
  unfold ensureAuthenticated
  rw [h]

theorem wq_zero (env : AuthEnv) (w : Nat → Nat) (st : AuthSt) :
    waitForQrCode env w 0 st = (.error .qrWaitTimeout, st) := rfl

theorem wq_succ_err (env : AuthEnv) (w : Nat → Nat) (fuel : Nat) (st : AuthSt)
    (e : AErr) (h : (checkSt env st).1 = .error e) :
    waitForQrCode env w (fuel + 1) st = (.error e, (checkSt env st).2) := by
  rw [waitForQrCode, h]

theorem wq_succ_ok (env : AuthEnv) (w : Nat → Nat) (fuel : Nat) (st : AuthSt)
    (s : SessionStatus) (h : (checkSt env st).1 = .ok s) :
    waitForQrCode env w (fuel + 1) st =
      if s.status = .SCAN_QR_CODE then handleQrCodeScan env w (checkSt env st).2
      else if s.status = .WORKING then (.ok (), (checkSt env st).2)
      else if s.status = .STARTING then waitForQrCode env w fuel (checkSt env st).2
      else (.error (.unexpectedWhileWaiting s.status), (checkSt env st).2) := by
  rw [waitForQrCode, h]

/-- The starting-wait loop only returns normally right after observing
`WORKING`. -/
theorem wq_ok_last (env : AuthEnv) (w : Nat → Nat) :
    ∀ (fuel : Nat) (st st1 : AuthSt), waitForQrCode env w fuel st = (.ok (), st1) →
      st1.obs.getLast? = some .WORKING
  | 0, st, st1, h => by
      rw [wq_zero] at h
      simp at h
  | fuel + 1, st, st1, h => by
      rcases checkSt_cases env st with ⟨s, hc⟩ | ⟨c, hc⟩
      · have hc1 : (checkSt env st).1 = .ok s := by rw [hc]
        rw [wq_succ_ok env w fuel st s hc1] at h
        by_cases h1 : s.status = .SCAN_QR_CODE
        · rw [if_pos h1] at h
          exact qrLoop_ok_last env w maxQrCodeAttempts _ st1 h
        · rw [if_neg h1] at h
          by_cases h2 : s.status = .WORKING
          · rw [if_pos h2] at h
            have h3 : (checkSt env st).2 = st1 := by
              have := congrArg Prod.snd h
              simpa using this
            rw [hc] at h3
            simp at h3
            rw [← h3, recordObs_last, h2]
          · rw [if_neg h2] at h
            by_cases h3 : s.status = .STARTING
            · rw [if_pos h3] at h
              exact wq_ok_last env w fuel _ st1 h
            · rw [if_neg h3] at h
              simp at h
      · have hc1 : (checkSt env st).1 = .error (.transport c) := by rw [hc]
        rw [wq_succ_err env w fuel st (.transport c) hc1] at h
        simp at h

/-! ## Claim C6 -/

/-- C6: `ensureAuthenticated` returns normally only when a `WORKING` status
has been observed — whatever the oracle responses, whatever the poll fuels
and the starting state, a normal return implies the last observed session
status is `WORKING`; every other path ends in a raised failure
(transport, unexpected-status, timeout or authentication-failed). -/
theorem ensureAuthenticated_only_working (env : AuthEnv) (wFuel : Nat → Nat)
    (sFuel : Nat) (st st1 : AuthSt)
    (h : ensureAuthenticated env wFuel sFuel st = (.ok (), st1)) :
    st1.obs.getLast? = some .WORKING := by
  rcases checkSt_cases env st with ⟨s, hc⟩ | ⟨c, hc⟩
  · have hc1 : (checkSt env st).1 = .ok s := by rw [hc]
    rw [ensureAuth_ok_eq env wFuel sFuel st s hc1] at h
    by_cases h1 : s.status = .SCAN_QR_CODE
    · rw [if_pos h1] at h
      exact qrLoop_ok_last env wFuel maxQrCodeAttempts _ st1 h
    · rw [if_neg h1] at h
      by_cases h2 : s.status = .STARTING
      · rw [if_pos h2] at h
        exact wq_ok_last env wFuel sFuel _ st1 h
      · rw [if_neg h2] at h
        by_cases h3 : s.status ≠ .WORKING
        · rw [if_pos h3] at h
          simp at h
        · rw [if_neg h3] at h
          push_neg at h3
          have h4 : (checkSt env st).2 = st1 := by
            have := congrArg Prod.snd h
            simpa using this
          rw [hc] at h4
          simp at h4
          rw [← h4, recordObs_last, h3]
  · have hc1 : (checkSt env st).1 = .error (.transport c) := by rw [hc]
    rw [ensureAuth_err_eq env wFuel sFuel st (.transport c) hc1] at h
    simp at h

/-- A session status oracle that reports `WORKING` immediately. -/
def envW : AuthEnv :=
  { sessionName := "default"
  , statusResp := fun _ => .ok
      { name := "default", status := .WORKING
      , me := some { id := "91@c.us", pushName := "bot" }, engine := "WEBJS" }
  , qrResp := fun _ => .ok [] }

/-- The initial authentication state: no calls made, nothing observed. -/
def st0 : AuthSt := { sIdx := 0, qIdx := 0, obs := [] }

/-- C6 witness: against `envW` the call returns normally and the last (only)
observed status is indeed `WORKING`. -/
theorem ensureAuthenticated_only_working_witness :
    (AuthSt.mk 1 0 [SStatus.WORKING]).obs.getLast? = some SStatus.WORKING :=
  ensureAuthenticated_only_working envW (fun _ => 1) 1 st0
    (AuthSt.mk 1 0 [SStatus.WORKING]) rfl

/-! ## Claim C8 -/

/-- C8: the QR challenge/response loop performs at most
`maxQrCodeAttempts = 5` attempts (each consuming one fresh QR challenge);
when it raises, the error is exactly the authentication-failed condition and
all 5 attempts were consumed; and when the initial status check of
`ensureAuthenticated` observes `SCAN_QR_CODE`, the whole call's outcome is
the QR loop's outcome, so that failure aborts `ensureAuthenticated`. -/
theorem qrLoop_bounded_abort (env : AuthEnv) (wFuel : Nat → Nat) (st : AuthSt) :
    (handleQrCodeScan env wFuel st).2.qIdx ≤ st.qIdx + maxQrCodeAttempts ∧
    (∀ (e : AErr) (st1 : AuthSt), handleQrCodeScan env wFuel st = (.error e, st1) →
      e = .authFailed ∧ st1.qIdx = st.qIdx + maxQrCodeAttempts) ∧
    (∀ (sFuel : Nat) (s : SessionStatus), (checkSt env st).1 = .ok s →
      s.status = .SCAN_QR_CODE →
      ensureAuthenticated env wFuel sFuel st = handleQrCodeScan env wFuel (checkSt env st).2) := by
  refine ⟨qrLoop_qIdx_le env wFuel maxQrCodeAttempts st, ?_, ?_⟩
  · intro e st1 h
    exact qrLoop_err_charac env wFuel maxQrCodeAttempts st e st1 h
  · intro sFuel s hc1 hscan
    rw [ensureAuth_ok_eq env wFuel sFuel st s hc1, if_pos hscan]

/-! ## Claim C9 -/

/-- C9: the session status check translates a 404 response into a normally
returned synthetic status — `FAILED` with `me = null` and the session's own
name — while every other transport failure propagates as an error and
successful responses pass through. -/
theorem checkSessionStatus_spec (sessionName : String) :
    checkSessionStatus sessionName (.error 404) =
      .ok { name := sessionName, status := .FAILED, me := none, engine := "" } ∧
    (∀ code, code ≠ 404 → checkSessionStatus sessionName (.error code) = .error code) ∧
    (∀ s, checkSessionStatus sessionName (.ok s) = .ok s) :=
  ⟨checkSessionStatus_404 sessionName,
    fun code hc => checkSessionStatus_err sessionName code hc,
    fun s => checkSessionStatus_ok sessionName s⟩

/-! ## Claim C10: what `isValidNotice` does and does not guarantee -/

/-- A payload `isValidNotice` accepts although its `title` and `url` are
empty strings and its `id` is not an integer. -/
def cexPayload : JVal :=
  .jobj [("id", .jnum (mkRat 1 2)), ("title", .jstr ""),
    ("date", .jstr "2024-08-01"), ("url", .jstr "")]

/-- C10 counterexample: the claim says the inbound validation accepts a
payload only if `id` is an integer and `title`, `date`, `url` are non-empty
text.  `cexPayload` is accepted by `isValidNotice` even though its `title`
and `url` are the empty string and its `id` is the non-integer number 1/2
(denominator 2). -/
theorem isValidNotice_accepts_empty_and_fractional :
    isValidNotice cexPayload = true ∧
    getField cexPayload "title" = some (.jstr "") ∧
    getField cexPayload "url" = some (.jstr "") ∧
    getField cexPayload "id" = some (.jnum (mkRat 1 2)) ∧
    (mkRat 1 2).den = 2 :=
  ⟨rfl, rfl, rfl, rfl, by decide⟩

theorem typeofIsNumber_spec (o : Option JVal) (h : typeofIsNumber o = true) :
    ∃ q, o = some (.jnum q) := by
  cases o with
  | none => simp [typeofIsNumber] at h
  | some v =>
      cases v with
      | jnum q => exact ⟨q, rfl⟩
      | jnull => simp [typeofIsNumber] at h
      | jbool b => simp [typeofIsNumber] at h
      | jstr s => simp [typeofIsNumber] at h
      | jarr xs => simp [typeofIsNumber] at h
      | jobj fs => simp [typeofIsNumber] at h

theorem typeofIsString_spec (o : Option JVal) (h : typeofIsString o = true) :
    ∃ t, o = some (.jstr t) := by
  cases o with
  | none => simp [typeofIsString] at h
  | some v =>
      cases v with
      | jstr t => exact ⟨t, rfl⟩
      | jnull => simp [typeofIsString] at h
      | jbool b => simp [typeofIsString] at h
      | jnum q => simp [typeofIsString] at h
      | jarr xs => simp [typeofIsString] at h
      | jobj fs => simp [typeofIsString] at h

/-- C10 (amended): the webhook route invokes `broadcastNotice` only on
payloads accepted by `isValidNotice`, and acceptance guarantees the `id`
property is a JSON number and the `title`, `date` and `url` properties are
JSON strings — it does not require `id` to be an integer nor the strings to
be non-empty. -/
theorem validated_before_broadcast :
    (∀ (sigPresent sigValid : Bool) (body : JVal),
        (routePost sigPresent sigValid body).2 = true → isValidNotice body = true) ∧
    (∀ v, isValidNotice v = true →
      (∃ q, getField v "id" = some (.jnum q)) ∧
      (∃ t, getField v "title" = some (.jstr t)) ∧
      (∃ t, getField v "date" = some (.jstr t)) ∧
      (∃ t, getField v "url" = some (.jstr t))) := by
  constructor
  · intro sigPresent sigValid body h
    by_cases hv : isValidNotice body = true
    · exact hv
    · have hv2 : isValidNotice body = false := by
        revert hv
        cases isValidNotice body <;> simp
      exfalso
      cases sigPresent <;> cases sigValid <;> simp [routePost, hv2] at h
  · intro v hv
    unfold isValidNotice at hv
    simp only [Bool.and_eq_true] at hv
    obtain ⟨⟨⟨⟨h1, h2⟩, h3⟩, h4⟩, h5⟩ := hv
    exact ⟨typeofIsNumber_spec _ h2, typeofIsString_spec _ h3,
      typeofIsString_spec _ h4, typeofIsString_spec _ h5⟩

end GGSIPU
